import Mathlib

set_option autoImplicit false

/-!
Shallow embedding of the request-authorization and resource-CRUD contract
layer of the real-estate CRM backend (src/backend/server.ts together with
the table definitions and zod schemas in src/backend/db.sql).

Conventions of the embedding:
* Timestamps are natural numbers.  The source stores ISO-8601 text whose
  lexicographic order agrees with chronological order, so the ordering
  facts proved here transfer directly.
* The storage engine is modelled as in-memory lists of rows plus the
  foreign-key constraints declared in src/backend/db.sql (plain
  REFERENCES clauses, no ON DELETE action, hence deleting a referenced
  row is rejected by the engine).
* External collaborators (bcrypt, jsonwebtoken) are modelled through
  their contracts: hashing is an injective tagging function and a signed
  token is a structured value that verification either accepts (when
  unexpired) or rejects.
* HTTP query-string parameters always arrive as strings, which is how
  Express presents them to the zod schemas.
-/

namespace RealEstateCrm

/-- Row of the users table (src/backend/db.sql lines 2-10). -/
structure User where
  id : String
  username : String
  email : String
  password_hash : String
  role : String
  created_at : Nat
  updated_at : Nat
  deriving DecidableEq, Repr

/-- Row of the clients table (src/backend/db.sql lines 13-24).  The
additional_details JSON column is nullable and is carried as an opaque
string. -/
structure Client where
  id : String
  first_name : String
  last_name : String
  email : String
  phone : String
  address : String
  status : String
  additional_details : Option String
  created_at : Nat
  updated_at : Nat
  deriving DecidableEq, Repr

/-- Row of the client_property_interests table (src/backend/db.sql lines
27-37): no updated_at column, and client_id carries a plain FOREIGN KEY
reference to clients(id). -/
structure ClientPropertyInterest where
  id : String
  client_id : String
  property_type : String
  preferred_location : String
  price_min : Option Int
  price_max : Option Int
  additional_notes : Option String
  created_at : Nat
  deriving DecidableEq, Repr

/-- Row of the properties table (src/backend/db.sql lines 40-49). -/
structure Property where
  id : String
  address : String
  property_type : String
  price : Int
  status : String
  description : Option String
  created_at : Nat
  updated_at : Nat
  deriving DecidableEq, Repr

/-- Row of the appointments table (src/backend/db.sql lines 52-66), with
foreign keys to clients, properties (nullable) and users (agent_id). -/
structure Appointment where
  id : String
  client_id : String
  property_id : Option String
  agent_id : String
  appointment_date : String
  appointment_time : String
  notes : Option String
  is_confirmed : Bool
  created_at : Nat
  updated_at : Nat
  deriving DecidableEq, Repr

/-- Row of the communication_logs table (src/backend/db.sql lines 69-79):
no created_at/updated_at, only a timestamp column. -/
structure CommunicationLog where
  id : String
  client_id : String
  user_id : String
  communication_type : String
  note : String
  follow_up_flag : Bool
  timestamp : Nat
  deriving DecidableEq, Repr

/-- Row of the client_documents table (src/backend/db.sql lines 81-90). -/
structure ClientDocument where
  id : String
  client_id : String
  document_name : String
  document_url : String
  document_type : String
  uploaded_at : Nat
  deriving DecidableEq, Repr

/-- Row of the user_settings table (src/backend/db.sql lines 93-101). -/
structure UserSettings where
  id : String
  user_id : String
  dashboard_preferences : Option String
  notification_settings : Option String
  configuration : Option String
  updated_at : Nat
  deriving DecidableEq, Repr

/-- The relational store: one list of rows per table of
src/backend/db.sql. -/
structure Db where
  users : List User
  clients : List Client
  client_property_interests : List ClientPropertyInterest
  properties : List Property
  appointments : List Appointment
  communication_logs : List CommunicationLog
  client_documents : List ClientDocument
  user_settings : List UserSettings
  deriving DecidableEq, Repr

/-- Payload of a signed JWT: server.ts line 133 signs exactly the id and
role, with a one-hour expiry (modelled in seconds). -/
structure Jwt where
  id : String
  role : String
  exp : Nat
  deriving DecidableEq, Repr

/-- Bearer credential attached to a request: the Authorization header can
be absent, carry a token that fails signature verification, or carry a
correctly signed token (whose expiry is checked separately). -/
inductive AuthHeader where
  | missing
  | malformed
  | signed (t : Jwt)
  deriving DecidableEq, Repr

/-- Response bodies produced by the handlers under scrutiny. -/
inductive Body where
  | empty
  | message (m : String)
  | user (u : User)
  | users (l : List User)
  | client (c : Client)
  | clients (l : List Client)
  | interest (r : ClientPropertyInterest)
  | commLog (r : CommunicationLog)
  | document (r : ClientDocument)
  | csv (text : String)
  | loginOk (token : Jwt) (record : User)
  deriving DecidableEq, Repr

/-- An HTTP response is a status code paired with a body. -/
abbrev Response := Nat × Body

/-- Status code of a handler result. -/
def statusOf (r : Response × Db) : Nat := r.1.1

/-- Body of a handler result. -/
def bodyOf (r : Response × Db) : Body := r.1.2

/-- Database state after a handler ran. -/
def dbOf (r : Response × Db) : Db := r.2

/-- Middleware authenticateToken (server.ts lines 96-105): a missing
token is answered with sendStatus(401); a token that fails verification
or is expired is answered with sendStatus(403); otherwise the decoded
payload is handed to the route handler. -/
def authenticateToken (h : AuthHeader) (now : Nat) : Except Nat Jwt :=
  match h with
  | AuthHeader.missing => Except.error 401
  | AuthHeader.malformed => Except.error 403
  | AuthHeader.signed t => if t.exp ≤ now then Except.error 403 else Except.ok t

/-- Composition of the middleware with a route handler: on an
authentication error the wrapped handler is never invoked and the store
is untouched. -/
def withAuth (h : AuthHeader) (now : Nat) (handler : Jwt → Db → Response × Db)
    (db : Db) : Response × Db :=
  match authenticateToken h now with
  | Except.error s => ((s, Body.empty), db)
  | Except.ok u => handler u db

/-- Contract model of bcrypt hashing: an opaque one-way tag of the
password (the library is an external collaborator; only the
compare-matches-hash contract matters here). -/
def bcryptHash (password : String) : String := "bcrypt$" ++ password

/-- Contract model of bcrypt.compare (server.ts line 128). -/
def bcryptCompare (password hash : String) : Bool := hash == bcryptHash password

/-- Contract model of jwt.sign (server.ts line 133): the payload holds
id and role and expires one hour (3600 seconds) after issuance. -/
def jwtSign (id role : String) (now : Nat) : Jwt :=
  { id := id, role := role, exp := now + 3600 }

/-- Modelled from the collaborator contract: stand-in for the zod email
format check used by the schemas in src/backend/db.sql. -/
def emailOk (s : String) : Bool := s.data.contains '@'

/-- Modelled from the collaborator contract: stand-in for the zod url
format check used by the client-document schemas. -/
def urlOk (s : String) : Bool := List.isPrefixOf "http".data s.data

/-- Truthiness of an optional string field, as JavaScript sees it: the
field must be present and non-empty (server.ts tests like
if parsed.first_name). -/
def truthy (o : Option String) : Bool :=
  match o with
  | some s => !s.isEmpty
  | none => false

/-- Validity of an optional required-string field under
z.string().min(1).optional(): an absent field passes, a present field
must be non-empty. -/
def presentNonempty (o : Option String) : Bool :=
  match o with
  | some s => !s.isEmpty
  | none => true

/-- Validity of an optional email field under
z.string().email().optional(). -/
def presentEmail (o : Option String) : Bool :=
  match o with
  | some s => emailOk s
  | none => true

/-- Validity of an optional url field under
z.string().url().optional(). -/
def presentUrl (o : Option String) : Bool :=
  match o with
  | some s => urlOk s
  | none => true

/-- Query string of a GET request: every value Express delivers is a
string. -/
abbrev QueryString := String → Option String

/-- Output shape shared by the search input schemas in
src/backend/db.sql. -/
structure SearchParams where
  query : Option String
  limit : Nat
  offset : Nat
  sort_by : String
  sort_order : String
  deriving DecidableEq, Repr

/-- Parse of a search input schema against an Express query object.  The
schemas declare limit and offset as z.number(), but query-string values
arrive as strings, so a request that supplies either parameter fails
with an invalid-type issue; absent parameters take the declared
defaults (limit 10, offset 0, entity default sort column, desc). -/
def parseSearchInput (allowedSort : List String) (defaultSort : String)
    (q : QueryString) : Except String SearchParams :=
  match q "limit" with
  | some _ => Except.error "Expected number, received string"
  | none =>
    match q "offset" with
    | some _ => Except.error "Expected number, received string"
    | none =>
      match q "sort_by" with
      | some sb =>
        if allowedSort.contains sb then
          match q "sort_order" with
          | some so =>
            if so == "asc" || so == "desc" then
              Except.ok { query := q "query", limit := 10, offset := 0,
                          sort_by := sb, sort_order := so }
            else Except.error "Invalid enum value"
          | none =>
            Except.ok { query := q "query", limit := 10, offset := 0,
                        sort_by := sb, sort_order := "desc" }
        else Except.error "Invalid enum value"
      | none =>
        match q "sort_order" with
        | some so =>
          if so == "asc" || so == "desc" then
            Except.ok { query := q "query", limit := 10, offset := 0,
                        sort_by := defaultSort, sort_order := so }
          else Except.error "Invalid enum value"
        | none =>
          Except.ok { query := q "query", limit := 10, offset := 0,
                      sort_by := defaultSort, sort_order := "desc" }

/-- Containment of one character sequence in another, used to model the
ILIKE substring matches of the list endpoints. -/
def charsContain (needle hay : List Char) : Bool :=
  match hay with
  | [] => needle.isEmpty
  | _ :: t => List.isPrefixOf needle hay || charsContain needle t

/-- Case-insensitive substring match, the semantics of
column ILIKE percent-query-percent. -/
def ilikeContains (hay needle : String) : Bool :=
  charsContain (needle.data.map Char.toLower) (hay.data.map Char.toLower)

/-- Clause first_name ILIKE q OR last_name ILIKE q OR email ILIKE q of
GET /api/clients (server.ts line 348). -/
def clientMatchesQuery (q : Option String) (c : Client) : Bool :=
  match q with
  | none => true
  | some s =>
    ilikeContains c.first_name s || ilikeContains c.last_name s ||
      ilikeContains c.email s

/-- Clause username ILIKE q OR email ILIKE q of GET /api/users
(server.ts line 221). -/
def userMatchesQuery (q : Option String) (u : User) : Bool :=
  match q with
  | none => true
  | some s => ilikeContains u.username s || ilikeContains u.email s

/-- Ascending comparison for the ORDER BY column of the clients list
(allow-list first_name, last_name, created_at). -/
def clientKeyLe (sb : String) (a b : Client) : Bool :=
  if sb == "first_name" then decide (a.first_name ≤ b.first_name)
  else if sb == "last_name" then decide (a.last_name ≤ b.last_name)
  else decide (a.created_at ≤ b.created_at)

/-- ORDER BY sort_by sort_order over client rows. -/
def orderClients (sb so : String) (l : List Client) : List Client :=
  if so == "asc" then l.mergeSort (clientKeyLe sb)
  else l.mergeSort (fun a b => clientKeyLe sb b a)

/-- Ascending comparison for the ORDER BY column of the users list
(allow-list username, email, created_at). -/
def userKeyLe (sb : String) (a b : User) : Bool :=
  if sb == "username" then decide (a.username ≤ b.username)
  else if sb == "email" then decide (a.email ≤ b.email)
  else decide (a.created_at ≤ b.created_at)

/-- ORDER BY sort_by sort_order over user rows. -/
def orderUsers (sb so : String) (l : List User) : List User :=
  if so == "asc" then l.mergeSort (userKeyLe sb)
  else l.mergeSort (fun a b => userKeyLe sb b a)

/-- Handler of POST /api/auth/login (server.ts lines 114-138): validate
username and password through the inline zod schema, look the user up by
username or email, compare the password against the stored bcrypt hash,
and answer both failure modes with the same 401 response. -/
def postAuthLogin (username password : Option String) (now : Nat) (db : Db) :
    Response × Db :=
  match username, password with
  | some ident, some pass =>
    if ident.isEmpty then ((400, Body.message "Username is required"), db)
    else if pass.isEmpty then ((400, Body.message "Password hash is required"), db)
    else
      match db.users.find? (fun u => u.username == ident || u.email == ident) with
      | none => ((401, Body.message "Authentication failed"), db)
      | some u =>
        if bcryptCompare pass u.password_hash then
          ((200, Body.loginOk (jwtSign u.id u.role now) u), db)
        else ((401, Body.message "Authentication failed"), db)
  | _, _ => ((400, Body.message "Required"), db)

/-- Handler of GET /api/users (server.ts lines 211-234): only admin and
manager pass the role check; the remainder is the shared list shape
(search clause, ORDER BY from the allow-list, LIMIT and OFFSET). -/
def getUsers (u : Jwt) (q : QueryString) (db : Db) : Response × Db :=
  if u.role != "admin" && u.role != "manager" then
    ((403, Body.message "Forbidden"), db)
  else
    match parseSearchInput ["username", "email", "created_at"] "created_at" q with
    | Except.error m => ((400, Body.message m), db)
    | Except.ok p =>
      let rows := orderUsers p.sort_by p.sort_order
        (db.users.filter (userMatchesQuery p.query))
      ((200, Body.users ((rows.drop p.offset).take p.limit)), db)

/-- Handler of GET /api/users/:id (server.ts lines 240-250): performs no
role check at all; any authenticated caller reaches the lookup. -/
def getUserById (id : String) (db : Db) : Response × Db :=
  match db.users.find? (fun r => r.id == id) with
  | none => ((404, Body.message "User not found"), db)
  | some r => ((200, Body.user r), db)

/-- Check whether a user row is referenced by a dependent table: the
FOREIGN KEY clauses of src/backend/db.sql point at users(id) from
appointments.agent_id, communication_logs.user_id and
user_settings.user_id, with no ON DELETE action, so the engine rejects
a delete of a referenced user. -/
def userReferenced (id : String) (db : Db) : Bool :=
  db.appointments.any (fun a => a.agent_id == id) ||
    db.communication_logs.any (fun l => l.user_id == id) ||
    db.user_settings.any (fun s => s.user_id == id)

/-- Handler of DELETE /api/users/:id (server.ts lines 302-315): admin
only; DELETE ... RETURNING * yields 404 when no row matched, a fixed
confirmation message when the row was removed, and surfaces the
engine's foreign-key violation as a 400 when the row is referenced. -/
def deleteUserById (u : Jwt) (id : String) (db : Db) : Response × Db :=
  if u.role != "admin" then ((403, Body.message "Forbidden"), db)
  else
    match db.users.find? (fun r => r.id == id) with
    | none => ((404, Body.message "User not found"), db)
    | some _ =>
      if userReferenced id db then
        ((400, Body.message "violates foreign key constraint"), db)
      else
        ((200, Body.message "User deleted successfully"),
          { db with users := db.users.filter (fun r => r.id != id) })

/-- Handler of GET /api/clients (server.ts lines 341-361): shared list
shape over the clients table, gated by searchClientInputSchema. -/
def getClients (q : QueryString) (db : Db) : Response × Db :=
  match parseSearchInput ["first_name", "last_name", "created_at"] "created_at" q with
  | Except.error m => ((400, Body.message m), db)
  | Except.ok p =>
    let rows := orderClients p.sort_by p.sort_order
      (db.clients.filter (clientMatchesQuery p.query))
    ((200, Body.clients ((rows.drop p.offset).take p.limit)), db)

/-- Handler of GET /api/clients/:id (server.ts lines 367-377). -/
def getClientById (id : String) (db : Db) : Response × Db :=
  match db.clients.find? (fun c => c.id == id) with
  | none => ((404, Body.message "Client not found"), db)
  | some c => ((200, Body.client c), db)

/-- Fields of a PUT /api/clients/:id request body; a missing key is
none, an explicit null on the nullable column is some none. -/
structure ClientUpdateBody where
  first_name : Option String := none
  last_name : Option String := none
  email : Option String := none
  phone : Option String := none
  address : Option String := none
  status : Option String := none
  additional_details : Option (Option String) := none
  deriving DecidableEq, Repr

/-- Check of updateClientInputSchema (src/backend/db.sql): each present
required-string field must be non-empty (z.string().min(1).optional()),
and a present email must be well-formed; a violation raises the first
issue as a 400. -/
def parseUpdateClientInput (b : ClientUpdateBody) :
    Except String ClientUpdateBody :=
  if !(presentNonempty b.first_name) then
    Except.error "String must contain at least 1 character(s)"
  else if !(presentNonempty b.last_name) then
    Except.error "String must contain at least 1 character(s)"
  else if !(presentEmail b.email) then
    Except.error "Invalid email"
  else if !(presentNonempty b.phone) then
    Except.error "String must contain at least 1 character(s)"
  else if !(presentNonempty b.address) then
    Except.error "String must contain at least 1 character(s)"
  else if !(presentNonempty b.status) then
    Except.error "String must contain at least 1 character(s)"
  else Except.ok b

/-- Column-wise effect of the SET clauses built by PUT /api/clients/:id
(server.ts lines 389-419): a truthy string field overwrites, a present
additional_details (null included) overwrites, everything else is kept,
and updated_at is always refreshed to the request time. -/
def applyClientUpdate (p : ClientUpdateBody) (now : Nat) (c : Client) : Client :=
  { id := c.id
    first_name := match p.first_name with
      | some s => if s.isEmpty then c.first_name else s
      | none => c.first_name
    last_name := match p.last_name with
      | some s => if s.isEmpty then c.last_name else s
      | none => c.last_name
    email := match p.email with
      | some s => if s.isEmpty then c.email else s
      | none => c.email
    phone := match p.phone with
      | some s => if s.isEmpty then c.phone else s
      | none => c.phone
    address := match p.address with
      | some s => if s.isEmpty then c.address else s
      | none => c.address
    status := match p.status with
      | some s => if s.isEmpty then c.status else s
      | none => c.status
    additional_details := match p.additional_details with
      | some v => v
      | none => c.additional_details
    created_at := c.created_at
    updated_at := now }

/-- Handler of PUT /api/clients/:id (server.ts lines 383-429): validate,
apply the SET clauses to the matching row (updated_at is always in the
SET list, so the statement is well-formed even for an empty body), and
return the merged row or 404. -/
def putClientById (id : String) (b : ClientUpdateBody) (now : Nat) (db : Db) :
    Response × Db :=
  match parseUpdateClientInput b with
  | Except.error m => ((400, Body.message m), db)
  | Except.ok p =>
    let newClients := db.clients.map
      (fun c => if c.id == id then applyClientUpdate p now c else c)
    match newClients.find? (fun c => c.id == id) with
    | none => ((404, Body.message "Client not found"), { db with clients := newClients })
    | some c => ((200, Body.client c), { db with clients := newClients })

/-- Check whether a client row is referenced by a dependent table: the
FOREIGN KEY clauses of src/backend/db.sql point at clients(id) from
client_property_interests, appointments, communication_logs and
client_documents, with no ON DELETE action. -/
def clientReferenced (id : String) (db : Db) : Bool :=
  db.client_property_interests.any (fun r => r.client_id == id) ||
    db.appointments.any (fun a => a.client_id == id) ||
    db.communication_logs.any (fun l => l.client_id == id) ||
    db.client_documents.any (fun d => d.client_id == id)

/-- Handler of DELETE /api/clients/:id (server.ts lines 435-445): no
role check; 404 when the id matches nothing; the engine's foreign-key
violation is surfaced as a 400 when dependents reference the row;
otherwise the row is removed and a fixed message returned. -/
def deleteClientById (id : String) (db : Db) : Response × Db :=
  match db.clients.find? (fun c => c.id == id) with
  | none => ((404, Body.message "Client not found"), db)
  | some _ =>
    if clientReferenced id db then
      ((400, Body.message "violates foreign key constraint"), db)
    else
      ((200, Body.message "Client deleted successfully"),
        { db with clients := db.clients.filter (fun c => c.id != id) })

/-- Header row of the CSV export: the column order of the clients
table. -/
def clientCsvHeader : String :=
  "id,first_name,last_name,email,phone,address,status,additional_details,created_at,updated_at"

/-- One CSV row: field values naively joined with commas (server.ts line
486), no quoting or escaping; a SQL null joins as the empty string. -/
def clientCsvRow (c : Client) : String :=
  String.intercalate ","
    [c.id, c.first_name, c.last_name, c.email, c.phone, c.address, c.status,
      (match c.additional_details with | some s => s | none => ""),
      toString c.created_at, toString c.updated_at]

/-- Whole CSV document: header line then one line per client row. -/
def clientsCsv (l : List Client) : String :=
  clientCsvHeader ++ "\n" ++ String.intercalate "\n" (l.map clientCsvRow)

/-- Handler registered for GET /api/clients/export (server.ts lines
475-494): admin or support only; an empty clients table yields 404 with
a fixed message and no CSV is produced; otherwise the naive CSV of all
rows is sent.  Note that this handler is registered after the
parameterized route GET /api/clients/:id (line 367), so Express never
dispatches the path /api/clients/export to it - see the route-order
model below. -/
def getClientsExport (u : Jwt) (db : Db) : Response × Db :=
  if u.role != "admin" && u.role != "support" then
    ((403, Body.message "Forbidden"), db)
  else if db.clients.isEmpty then
    ((404, Body.message "No clients found for export"), db)
  else ((200, Body.csv (clientsCsv db.clients)), db)

/-- Pattern of one path segment in an Express route: a parameter such as
:id matches any segment, a literal matches only itself. -/
inductive SegPattern where
  | param
  | lit (s : String)
  deriving DecidableEq, Repr

/-- Match of a segment pattern against a concrete path segment. -/
def segMatch (p : SegPattern) (seg : String) : Bool :=
  match p with
  | SegPattern.param => true
  | SegPattern.lit s => s == seg

/-- Routes registered for an authenticated GET of /api/clients/<segment>,
in the order server.ts registers them: the parameterized route
/api/clients/:id at line 367 comes before /api/clients/export at line
475.  Express tries routes in registration order and runs the first
match. -/
def getClientsSegmentRoutes (u : Jwt) :
    List (SegPattern × (String → Db → Response × Db)) :=
  [ (SegPattern.param, fun seg db => getClientById seg db),
    (SegPattern.lit "export", fun _ db => getClientsExport u db) ]

/-- Dispatch of an authenticated GET /api/clients/<segment>: the first
registered route whose pattern matches the segment handles the
request. -/
def dispatchGetClientsSegment (u : Jwt) (seg : String) (db : Db) :
    Response × Db :=
  match (getClientsSegmentRoutes u).find? (fun r => segMatch r.1 seg) with
  | some r => r.2 seg db
  | none => ((404, Body.empty), db)

/-- Fields of a PUT /api/client-property-interests/:id request body. -/
structure InterestUpdateBody where
  client_id : Option String := none
  property_type : Option String := none
  preferred_location : Option String := none
  price_min : Option (Option Int) := none
  price_max : Option (Option Int) := none
  additional_notes : Option (Option String) := none
  deriving DecidableEq, Repr

/-- Check of updateClientPropertyInterestInputSchema: present
property_type and preferred_location must be non-empty. -/
def parseUpdateInterestInput (b : InterestUpdateBody) :
    Except String InterestUpdateBody :=
  if !(presentNonempty b.property_type) then
    Except.error "String must contain at least 1 character(s)"
  else if !(presentNonempty b.preferred_location) then
    Except.error "String must contain at least 1 character(s)"
  else Except.ok b

/-- SET clauses accumulated by PUT /api/client-property-interests/:id
(server.ts lines 557-579): truthy strings and present nullable fields;
note that no updated_at clause is ever added and client_id is ignored. -/
def interestSetClauses (p : InterestUpdateBody) :
    List (ClientPropertyInterest → ClientPropertyInterest) :=
  (match p.property_type with
    | some s => if s.isEmpty then [] else [fun r => { r with property_type := s }]
    | none => []) ++
  (match p.preferred_location with
    | some s => if s.isEmpty then [] else [fun r => { r with preferred_location := s }]
    | none => []) ++
  (match p.price_min with
    | some v => [fun r => { r with price_min := v }]
    | none => []) ++
  (match p.price_max with
    | some v => [fun r => { r with price_max := v }]
    | none => []) ++
  (match p.additional_notes with
    | some v => [fun r => { r with additional_notes := v }]
    | none => [])

/-- Handler of PUT /api/client-property-interests/:id (server.ts lines
554-590): when no SET clause was accumulated the built UPDATE statement
has an empty SET list, which the engine rejects as a syntax error and
the route surfaces as a 400 before any row is looked at. -/
def putClientPropertyInterestById (id : String) (b : InterestUpdateBody)
    (db : Db) : Response × Db :=
  match parseUpdateInterestInput b with
  | Except.error m => ((400, Body.message m), db)
  | Except.ok p =>
    let clauses := interestSetClauses p
    if clauses.isEmpty then
      ((400, Body.message "syntax error at or near WHERE"), db)
    else
      let newRows := db.client_property_interests.map
        (fun r => if r.id == id then clauses.foldl (fun r f => f r) r else r)
      match newRows.find? (fun r => r.id == id) with
      | none => ((404, Body.message "Record not found"),
          { db with client_property_interests := newRows })
      | some r => ((200, Body.interest r),
          { db with client_property_interests := newRows })

/-- Fields of a PUT /api/communication-logs/:id request body; the
timestamp is a parsed date, modelled as a number. -/
structure CommLogUpdateBody where
  client_id : Option String := none
  user_id : Option String := none
  communication_type : Option String := none
  note : Option String := none
  follow_up_flag : Option Bool := none
  timestamp : Option Nat := none
  deriving DecidableEq, Repr

/-- Check of updateCommunicationLogInputSchema: present
communication_type and note must be non-empty. -/
def parseUpdateCommLogInput (b : CommLogUpdateBody) :
    Except String CommLogUpdateBody :=
  if !(presentNonempty b.communication_type) then
    Except.error "String must contain at least 1 character(s)"
  else if !(presentNonempty b.note) then
    Except.error "String must contain at least 1 character(s)"
  else Except.ok b

/-- SET clauses accumulated by PUT /api/communication-logs/:id
(server.ts lines 936-951): truthy communication_type and note, present
follow_up_flag, present timestamp (a parsed date is always truthy), and
never an updated_at clause. -/
def commLogSetClauses (p : CommLogUpdateBody) :
    List (CommunicationLog → CommunicationLog) :=
  (match p.communication_type with
    | some s => if s.isEmpty then [] else [fun r => { r with communication_type := s }]
    | none => []) ++
  (match p.note with
    | some s => if s.isEmpty then [] else [fun r => { r with note := s }]
    | none => []) ++
  (match p.follow_up_flag with
    | some v => [fun r => { r with follow_up_flag := v }]
    | none => []) ++
  (match p.timestamp with
    | some v => [fun r => { r with timestamp := v }]
    | none => [])

/-- Handler of PUT /api/communication-logs/:id (server.ts lines
930-962): same empty-SET failure shape as the property-interest
update. -/
def putCommunicationLogById (id : String) (b : CommLogUpdateBody) (db : Db) :
    Response × Db :=
  match parseUpdateCommLogInput b with
  | Except.error m => ((400, Body.message m), db)
  | Except.ok p =>
    let clauses := commLogSetClauses p
    if clauses.isEmpty then
      ((400, Body.message "syntax error at or near WHERE"), db)
    else
      let newRows := db.communication_logs.map
        (fun r => if r.id == id then clauses.foldl (fun r f => f r) r else r)
      match newRows.find? (fun r => r.id == id) with
      | none => ((404, Body.message "Log not found"),
          { db with communication_logs := newRows })
      | some r => ((200, Body.commLog r),
          { db with communication_logs := newRows })

/-- Fields of a PUT /api/client-documents/:id request body. -/
structure DocumentUpdateBody where
  client_id : Option String := none
  document_name : Option String := none
  document_url : Option String := none
  document_type : Option String := none
  deriving DecidableEq, Repr

/-- Check of updateClientDocumentInputSchema: present document_name and
document_type must be non-empty and a present document_url must be a
well-formed URL. -/
def parseUpdateDocumentInput (b : DocumentUpdateBody) :
    Except String DocumentUpdateBody :=
  if !(presentNonempty b.document_name) then
    Except.error "String must contain at least 1 character(s)"
  else if !(presentUrl b.document_url) then
    Except.error "Must be a valid URL"
  else if !(presentNonempty b.document_type) then
    Except.error "String must contain at least 1 character(s)"
  else Except.ok b

/-- SET clauses accumulated by PUT /api/client-documents/:id (server.ts
lines 1043-1054): three truthy string fields, never an updated_at
clause. -/
def documentSetClauses (p : DocumentUpdateBody) :
    List (ClientDocument → ClientDocument) :=
  (match p.document_name with
    | some s => if s.isEmpty then [] else [fun r => { r with document_name := s }]
    | none => []) ++
  (match p.document_url with
    | some s => if s.isEmpty then [] else [fun r => { r with document_url := s }]
    | none => []) ++
  (match p.document_type with
    | some s => if s.isEmpty then [] else [fun r => { r with document_type := s }]
    | none => [])

/-- Handler of PUT /api/client-documents/:id (server.ts lines
1037-1065): same empty-SET failure shape as the property-interest
update. -/
def putClientDocumentById (id : String) (b : DocumentUpdateBody) (db : Db) :
    Response × Db :=
  match parseUpdateDocumentInput b with
  | Except.error m => ((400, Body.message m), db)
  | Except.ok p =>
    let clauses := documentSetClauses p
    if clauses.isEmpty then
      ((400, Body.message "syntax error at or near WHERE"), db)
    else
      let newRows := db.client_documents.map
        (fun r => if r.id == id then clauses.foldl (fun r f => f r) r else r)
      match newRows.find? (fun r => r.id == id) with
      | none => ((404, Body.message "Document not found"),
          { db with client_documents := newRows })
      | some r => ((200, Body.document r),
          { db with client_documents := newRows })

/-- Stand-in route handler used to instantiate statements that quantify
over an arbitrary protected endpoint. -/
def hStub : Jwt → Db → Response × Db := fun _ db => ((200, Body.empty), db)

/-- Store with every table empty. -/
def emptyDb : Db :=
  { users := [], clients := [], client_property_interests := [],
    properties := [], appointments := [], communication_logs := [],
    client_documents := [], user_settings := [] }

/-- Client row matching the concrete scenario of the spec. -/
def aliceC1 : Client :=
  { id := "c1", first_name := "Alice", last_name := "Wonderland",
    email := "alice@x.co.uk", phone := "0712345", address := "1 A St",
    status := "active", additional_details := none,
    created_at := 100, updated_at := 100 }

/-- Store holding a single client row. -/
def dbOneClient : Db := { emptyDb with clients := [aliceC1] }

/-- Concrete store mirroring the seed data of src/backend/db.sql
(timestamps abbreviated to increasing naturals that preserve the seed
order, JSON payloads and bcrypt hashes to opaque tokens). -/
def dbSeed : Db :=
  { users :=
      [ { id := "u1", username := "admin_user", email := "admin@estatehub.co.uk",
          password_hash := "hash_admin", role := "admin", created_at := 101, updated_at := 101 },
        { id := "u2", username := "agent_john", email := "john.doe@estatehub.co.uk",
          password_hash := "hash_john", role := "agent", created_at := 102, updated_at := 102 },
        { id := "u3", username := "agent_jane", email := "jane.smith@estatehub.co.uk",
          password_hash := "hash_jane", role := "agent", created_at := 103, updated_at := 103 },
        { id := "u4", username := "support_sam", email := "sam.support@estatehub.co.uk",
          password_hash := "hash_sam", role := "support", created_at := 104, updated_at := 104 },
        { id := "u5", username := "manager_mike", email := "mike.manager@estatehub.co.uk",
          password_hash := "hash_mike", role := "manager", created_at := 105, updated_at := 105 } ],
    clients :=
      [ { id := "c1", first_name := "Alice", last_name := "Wonderland",
          email := "alice@sample.co.uk", phone := "07123456789",
          address := "123 Baker Street, London, UK", status := "active",
          additional_details := some "preferred_contact=email",
          created_at := 201, updated_at := 201 },
        { id := "c2", first_name := "Bob", last_name := "Builder",
          email := "bob.builder@sample.co.uk", phone := "07987654321",
          address := "456 High Street, Manchester, UK", status := "prospective",
          additional_details := none, created_at := 202, updated_at := 202 },
        { id := "c3", first_name := "Charlie", last_name := "Chaplin",
          email := "charlie.chaplin@sample.co.uk", phone := "07894561234",
          address := "789 Low Street, Birmingham, UK", status := "active",
          additional_details := some "interest=commercial",
          created_at := 203, updated_at := 203 } ],
    client_property_interests :=
      [ { id := "cpi1", client_id := "c1", property_type := "residential",
          preferred_location := "London", price_min := some 500000,
          price_max := some 1000000,
          additional_notes := some "Looking for modern apartment", created_at := 301 },
        { id := "cpi2", client_id := "c2", property_type := "commercial",
          preferred_location := "Manchester", price_min := some 200000,
          price_max := some 500000,
          additional_notes := some "Need space for small business", created_at := 302 } ],
    properties :=
      [ { id := "p1", address := "10 Downing Street, London, UK",
          property_type := "residential", price := 750000, status := "for sale",
          description := some "Historic building with modern amenities",
          created_at := 401, updated_at := 401 },
        { id := "p2", address := "1 King Street, Manchester, UK",
          property_type := "commercial", price := 350000, status := "sold",
          description := some "Prime location for business",
          created_at := 402, updated_at := 402 } ],
    appointments :=
      [ { id := "a1", client_id := "c1", property_id := some "p1", agent_id := "u2",
          appointment_date := "2023-10-05", appointment_time := "14:00",
          notes := some "Initial viewing appointment", is_confirmed := true,
          created_at := 451, updated_at := 451 },
        { id := "a2", client_id := "c2", property_id := none, agent_id := "u3",
          appointment_date := "2023-10-06", appointment_time := "16:00",
          notes := some "Discuss property requirements", is_confirmed := false,
          created_at := 452, updated_at := 452 } ],
    communication_logs :=
      [ { id := "cl1", client_id := "c1", user_id := "u2",
          communication_type := "email", note := "Sent property brochure",
          follow_up_flag := false, timestamp := 501 },
        { id := "cl2", client_id := "c2", user_id := "u3",
          communication_type := "call", note := "Left voicemail regarding appointment",
          follow_up_flag := true, timestamp := 502 },
        { id := "cl3", client_id := "c1", user_id := "u4",
          communication_type := "meeting", note := "Discussed financing options",
          follow_up_flag := true, timestamp := 503 } ],
    client_documents :=
      [ { id := "cd1", client_id := "c1", document_name := "ID Proof",
          document_url := "https://picsum.photos/seed/id1/300/200",
          document_type := "id", uploaded_at := 601 },
        { id := "cd2", client_id := "c2", document_name := "Contract",
          document_url := "https://picsum.photos/seed/contract1/300/200",
          document_type := "contract", uploaded_at := 602 } ],
    user_settings :=
      [ { id := "us1", user_id := "u1", dashboard_preferences := some "theme=dark",
          notification_settings := some "email=true", configuration := some "language=en-UK",
          updated_at := 701 },
        { id := "us2", user_id := "u2", dashboard_preferences := some "theme=light",
          notification_settings := some "email=false", configuration := some "language=en-UK",
          updated_at := 702 } ] }

/-- Fresh token of the seed admin. -/
def adminTok : Jwt := { id := "u1", role := "admin", exp := 100000 }

/-- Fresh token of a seed agent. -/
def agentTok : Jwt := { id := "u2", role := "agent", exp := 100000 }

/-- Fresh token of the seed support user. -/
def supportTok : Jwt := { id := "u4", role := "support", exp := 100000 }

/-- User row whose stored hash matches the password pw1 under the bcrypt
contract model, for exercising the login path. -/
def bobUser : User :=
  { id := "u9", username := "bob", email := "bob@x.co.uk",
    password_hash := bcryptHash "pw1", role := "agent",
    created_at := 1, updated_at := 1 }

/-- Store holding only the login test user. -/
def dbLogin : Db := { emptyDb with users := [bobUser] }

/-- Query object carrying explicit limit and offset parameters, exactly
as Express hands them to the handler: as strings. -/
def qPage (limit offset : String) : QueryString :=
  fun k => if k == "limit" then some limit else if k == "offset" then some offset else none

/-- Query object with no parameters at all. -/
def qNone : QueryString := fun _ => none

/-!
Helper lemmas shared by the proofs below.
-/

/-- Updating exactly the rows selected by a key-preserving function
commutes with looking the key up. -/
theorem find?_update_map {α : Type} (l : List α) (p : α → Bool) (f : α → α)
    (hf : ∀ a, p a = true → p (f a) = true) (a0 : α)
    (h : l.find? p = some a0) :
    (l.map (fun a => if p a then f a else a)).find? p = some (f a0) := by
  induction l with
  | nil => simp at h
  | cons x t ih =>
    cases hx : p x with
    | true =>
      rw [List.find?_cons_of_pos t hx] at h
      injection h with h
      subst h
      simpa [hx] using List.find?_cons_of_pos
        (t.map (fun a => if p a then f a else a)) (hf x hx)
    | false =>
      rw [List.find?_cons_of_neg t (by simp [hx])] at h
      have h2 := ih h
      rw [List.map_cons, if_neg (by simp [hx]),
        List.find?_cons_of_neg _ (by simp [hx])]
      exact h2

/-- Looking a key up after filtering the key's rows out always fails. -/
theorem find?_filter_none {α : Type} (l : List α) (p q : α → Bool)
    (hpq : ∀ a, q a = true → p a = false) :
    (l.filter q).find? p = none := by
  rw [List.find?_eq_none]
  intro x hx
  rw [List.mem_filter] at hx
  simp [hpq x hx.2]

/-- A validated string is never the empty string: emailOk demands a
character, so an empty email also fails. -/
theorem emailOk_isEmpty_false {s : String} (h : emailOk s = true) :
    s.isEmpty = false := by
  cases he : s.isEmpty with
  | false => rfl
  | true =>
    rw [(String.isEmpty_iff s).mp he] at h
    simp [emailOk] at h

/-- Inversion of a successful client-update validation: every condition
of the schema held. -/
theorem parseUpdateClientInput_ok_conditions {b : ClientUpdateBody}
    (h : parseUpdateClientInput b = Except.ok b) :
    presentNonempty b.first_name = true ∧ presentNonempty b.last_name = true ∧
    presentEmail b.email = true ∧ presentNonempty b.phone = true ∧
    presentNonempty b.address = true ∧ presentNonempty b.status = true := by
  rw [parseUpdateClientInput] at h
  cases h1 : presentNonempty b.first_name <;> rw [h1] at h
  · simp at h
  cases h2 : presentNonempty b.last_name <;> rw [h2] at h
  · simp at h
  cases h3 : presentEmail b.email <;> rw [h3] at h
  · simp at h
  cases h4 : presentNonempty b.phone <;> rw [h4] at h
  · simp at h
  cases h5 : presentNonempty b.address <;> rw [h5] at h
  · simp at h
  cases h6 : presentNonempty b.status <;> rw [h6] at h
  · simp at h
  exact ⟨rfl, rfl, rfl, rfl, rfl, rfl⟩

/-- A present field that passed presentNonempty is non-empty. -/
theorem presentNonempty_some {o : Option String} {v : String}
    (ho : o = some v) (h : presentNonempty o = true) : v.isEmpty = false := by
  rw [ho] at h
  simpa [presentNonempty] using h

/-- Shape of a successful client update: the matching row is rewritten
to its merged form and returned. -/
theorem putClientById_ok (db : Db) (id : String) (b : ClientUpdateBody)
    (now : Nat) (c0 : Client)
    (hfind : db.clients.find? (fun c => c.id == id) = some c0)
    (hparse : parseUpdateClientInput b = Except.ok b) :
    putClientById id b now db =
      ((200, Body.client (applyClientUpdate b now c0)),
        { db with clients := db.clients.map
                     (fun c => if c.id == id then applyClientUpdate b now c else c) }) := by
  have hfind2 : (db.clients.map
      (fun c => if c.id == id then applyClientUpdate b now c else c)).find?
        (fun c => c.id == id) = some (applyClientUpdate b now c0) :=
    find?_update_map db.clients (fun c => c.id == id) (applyClientUpdate b now)
      (by intro a ha; simpa [applyClientUpdate] using ha) c0 hfind
  simp only [putClientById, hparse]
  rw [hfind2]

/-!
Claim theorems.
-/

/-- C2 counterexample: a request carrying an invalid token is answered
with 403, not 401, and likewise an expired one, so the claim that a
missing, invalid or expired token all yield 401 is false on the code. -/
theorem c2_counterexample :
    statusOf (withAuth AuthHeader.malformed 0 hStub emptyDb) = 403 ∧
    statusOf (withAuth
      (AuthHeader.signed { id := "u1", role := "admin", exp := 5 }) 10 hStub emptyDb) = 403 ∧
    (403 : Nat) ≠ 401 :=
  ⟨rfl, rfl, by decide⟩

/-- C2 (amended): on every protected endpoint a missing token yields
401 and an invalid or expired token yields 403; in all three cases the
route handler is never invoked and the store is untouched. -/
theorem c2_unauthenticated_requests (handler : Jwt → Db → Response × Db)
    (db : Db) (now : Nat) :
    withAuth AuthHeader.missing now handler db = ((401, Body.empty), db) ∧
    withAuth AuthHeader.malformed now handler db = ((403, Body.empty), db) ∧
    (∀ t : Jwt, t.exp ≤ now →
      withAuth (AuthHeader.signed t) now handler db = ((403, Body.empty), db)) := by
  refine ⟨rfl, rfl, ?_⟩
  intro t ht
  simp [withAuth, authenticateToken, ht]

/-- C2 witness: the amended theorem evaluated on an expired token. -/
theorem c2_unauthenticated_requests_witness :
    ({ id := "u1", role := "agent", exp := 5 } : Jwt).exp ≤ 10 ∧
    withAuth (AuthHeader.signed { id := "u1", role := "agent", exp := 5 }) 10 hStub emptyDb =
      ((403, Body.empty), emptyDb) :=
  ⟨by decide, (c2_unauthenticated_requests hStub emptyDb 10).2.2 _ (by decide)⟩

/-- C3 counterexample: an authenticated agent reading a single user gets
200 with the record, not the 403 the claim requires for roles outside
admin and manager. -/
theorem c3_counterexample :
    statusOf (withAuth (AuthHeader.signed agentTok) 0
      (fun _ db => getUserById "u1" db) dbSeed) = 200 ∧
    (200 : Nat) ≠ 403 :=
  ⟨rfl, by decide⟩

/-- C3 (amended): listing users is restricted to admin and manager (any
other role gets 403 regardless of the store), but reading a single user
performs no role check at all: for every authenticated caller the
lookup returns 200 with the record when the id exists and 404
otherwise. -/
theorem c3_users_read_access (u : Jwt) (db : Db) (q : QueryString) (id : String) :
    (u.role ≠ "admin" → u.role ≠ "manager" →
      getUsers u q db = ((403, Body.message "Forbidden"), db)) ∧
    (∀ r, db.users.find? (fun x => x.id == id) = some r →
      getUserById id db = ((200, Body.user r), db)) ∧
    (db.users.find? (fun x => x.id == id) = none →
      getUserById id db = ((404, Body.message "User not found"), db)) := by
  refine ⟨?_, ?_, ?_⟩
  · intro h1 h2
    have b1 : (u.role != "admin") = true := bne_iff_ne.mpr h1
    have b2 : (u.role != "manager") = true := bne_iff_ne.mpr h2
    simp [getUsers, b1, b2]
  · intro r hr
    simp [getUserById, hr]
  · intro hn
    simp [getUserById, hn]

/-- C3 witness: the amended theorem evaluated on the seed store with a
support caller for the list and an existing id for the single read. -/
theorem c3_users_read_access_witness :
    getUsers supportTok qNone dbSeed = ((403, Body.message "Forbidden"), dbSeed) ∧
    getUserById "u2" dbSeed =
      ((200, Body.user { id := "u2", username := "agent_john",
                         email := "john.doe@estatehub.co.uk",
                         password_hash := "hash_john", role := "agent",
                         created_at := 102, updated_at := 102 }), dbSeed) :=
  ⟨(c3_users_read_access supportTok dbSeed qNone "u2").1 (by decide) (by decide),
    (c3_users_read_access supportTok dbSeed qNone "u2").2.1 _ rfl⟩

/-- C6 counterexample: a client update setting first_name to the empty
string is rejected with 400 by the schema (z.string().min(1)), instead
of succeeding with the empty value silently ignored. -/
theorem c6_counterexample :
    statusOf (putClientById "c1" { first_name := some "" } 999 dbOneClient) = 400 ∧
    dbOf (putClientById "c1" { first_name := some "" } 999 dbOneClient) = dbOneClient ∧
    (400 : Nat) ≠ 200 :=
  ⟨rfl, rfl, by decide⟩

/-- C6 (amended): a PUT /api/clients/:id whose body sets a required
string field to the empty string is rejected with a 400 validation
error before any SQL runs; the stored record keeps all its previous
values. -/
theorem c6_empty_required_rejected (db : Db) (id : String)
    (b : ClientUpdateBody) (now : Nat) (h : b.first_name = some "") :
    statusOf (putClientById id b now db) = 400 ∧
    dbOf (putClientById id b now db) = db := by
  have hp : parseUpdateClientInput b =
      Except.error "String must contain at least 1 character(s)" := by
    rw [parseUpdateClientInput, h]
    rfl
  constructor
  · rw [statusOf, putClientById, hp]
  · rw [dbOf, putClientById, hp]

/-- C6 witness: the amended theorem evaluated on the one-client store. -/
theorem c6_empty_required_rejected_witness :
    ({ first_name := some "" } : ClientUpdateBody).first_name = some "" ∧
    statusOf (putClientById "c1" { first_name := some "" } 999 dbOneClient) = 400 :=
  ⟨rfl, (c6_empty_required_rejected dbOneClient "c1" { first_name := some "" } 999 rfl).1⟩

/-- C7: the pagination requests of the claim are rejected: the search
schemas declare limit and offset as z.number(), Express delivers every
query-string value as a string, so limit=2 with offset=0 (and likewise
offset=2) fails validation with 400 and no rows are returned, while the
same endpoint without explicit parameters succeeds under the schema
defaults. -/
theorem c7_pagination_rejected (db : Db) :
    getClients (qPage "2" "0") db =
      ((400, Body.message "Expected number, received string"), db) ∧
    getClients (qPage "2" "2") db =
      ((400, Body.message "Expected number, received string"), db) ∧
    statusOf (getClients qNone db) = 200 :=
  ⟨rfl, rfl, rfl⟩

/-- C9: the export route is shadowed by registration order.  For every
caller and every store, GET /api/clients/export is dispatched to the
earlier-registered single-client route with id = export, so the
response is the :id handler's (404 with message Client not found
whenever no stored client carries the id export - in particular on the
empty store and on the seed store - and with no role check, the status
is never 403), and the response body is never a CSV; the export
handler's no-empty-CSV guard the claim describes is unreachable. -/
theorem c9_export_route_shadowed (u : Jwt) (db : Db) :
    dispatchGetClientsSegment u "export" db = getClientById "export" db ∧
    (∀ s, bodyOf (dispatchGetClientsSegment u "export" db) ≠ Body.csv s) ∧
    statusOf (dispatchGetClientsSegment u "export" db) ≠ 403 ∧
    dispatchGetClientsSegment u "export" emptyDb =
      ((404, Body.message "Client not found"), emptyDb) ∧
    dispatchGetClientsSegment u "export" dbSeed =
      ((404, Body.message "Client not found"), dbSeed) := by
  have hd : dispatchGetClientsSegment u "export" db = getClientById "export" db := rfl
  refine ⟨hd, ?_, ?_, rfl, rfl⟩
  · intro s
    rw [hd]
    cases hf : db.clients.find? (fun c => c.id == "export") with
    | none => simp [bodyOf, getClientById, hf]
    | some c => simp [bodyOf, getClientById, hf]
  · rw [hd]
    cases hf : db.clients.find? (fun c => c.id == "export") with
    | none => simp [statusOf, getClientById, hf]
    | some c => simp [statusOf, getClientById, hf]

/-- C4 counterexample: the admin delete of the existing, unreferenced
seed user u5 succeeds, but the confirmation message is the fixed string
with no occurrence of the former id in it; moreover the admin delete of
the existing but referenced user u2 fails with 400 instead of
confirming. -/
theorem c4_counterexample :
    bodyOf (deleteUserById adminTok "u5" dbSeed) =
      Body.message "User deleted successfully" ∧
    statusOf (deleteUserById adminTok "u5" dbSeed) = 200 ∧
    charsContain "u5".data ("User deleted successfully").data = false ∧
    statusOf (deleteUserById adminTok "u2" dbSeed) = 400 :=
  ⟨rfl, rfl, by decide, rfl⟩

/-- C4 (amended): a support caller deleting a user gets 403; an admin
deleting an existing user that dependent rows reference gets 400 from
the foreign-key constraints, with the store unchanged; an admin
deleting an existing user that no dependent row references gets the
fixed confirmation message (which does not embed the deleted id), the
row is removed, and a subsequent GET on the id yields 404. -/
theorem c4_delete_user_roles (db : Db) (id : String) (us ua : Jwt)
    (hs : us.role = "support") (ha : ua.role = "admin") :
    deleteUserById us id db = ((403, Body.message "Forbidden"), db) ∧
    (∀ r, db.users.find? (fun x => x.id == id) = some r →
      userReferenced id db = true →
      deleteUserById ua id db =
        ((400, Body.message "violates foreign key constraint"), db)) ∧
    (∀ r, db.users.find? (fun x => x.id == id) = some r →
      userReferenced id db = false →
      deleteUserById ua id db =
        ((200, Body.message "User deleted successfully"),
          { db with users := db.users.filter (fun x => x.id != id) }) ∧
      getUserById id (dbOf (deleteUserById ua id db)) =
        ((404, Body.message "User not found"),
          dbOf (deleteUserById ua id db))) := by
  refine ⟨?_, ?_, ?_⟩
  · simp [deleteUserById, hs]
  · intro r hr href
    simp only [deleteUserById, ha]
    rw [hr, href]
    rfl
  · intro r hr href
    have hdel : deleteUserById ua id db =
        ((200, Body.message "User deleted successfully"),
          { db with users := db.users.filter (fun x => x.id != id) }) := by
      simp only [deleteUserById, ha]
      rw [hr, href]
      rfl
    refine ⟨hdel, ?_⟩
    rw [hdel]
    have hnone : (db.users.filter (fun x => x.id != id)).find?
        (fun x => x.id == id) = none := by
      refine find?_filter_none _ _ _ ?_
      intro a h
      cases hc : a.id == id with
      | false => rfl
      | true => simp [bne, hc] at h
    simp [getUserById, dbOf, hnone]

/-- C4 witness: the amended theorem evaluated on the seed store, with
the seed support and admin callers, the referenced user u2 and the
unreferenced user u5. -/
theorem c4_delete_user_roles_witness :
    deleteUserById supportTok "u5" dbSeed =
      ((403, Body.message "Forbidden"), dbSeed) ∧
    userReferenced "u2" dbSeed = true ∧
    deleteUserById adminTok "u2" dbSeed =
      ((400, Body.message "violates foreign key constraint"), dbSeed) ∧
    userReferenced "u5" dbSeed = false ∧
    deleteUserById adminTok "u5" dbSeed =
      ((200, Body.message "User deleted successfully"),
        { dbSeed with users := dbSeed.users.filter (fun x => x.id != "u5") }) := by
  have h5 := c4_delete_user_roles dbSeed "u5" supportTok adminTok rfl rfl
  have h2 := c4_delete_user_roles dbSeed "u2" supportTok adminTok rfl rfl
  exact ⟨h5.1, by decide, h2.2.1 _ rfl (by decide), by decide,
    (h5.2.2 _ rfl (by decide)).1⟩

/-- C5 counterexample: DELETE of the seed client c1, which dependent
rows reference, is not unconditional: it fails with 400, the row stays
in the store, and nothing is orphaned. -/
theorem c5_counterexample :
    statusOf (deleteClientById "c1" dbSeed) = 400 ∧
    dbOf (deleteClientById "c1" dbSeed) = dbSeed ∧
    (dbOf (deleteClientById "c1" dbSeed)).clients.any (fun c => c.id == "c1") = true ∧
    (400 : Nat) ≠ 200 :=
  ⟨rfl, rfl, rfl, by decide⟩

/-- C5 (amended): the delete endpoint removes an existing row
unconditionally only when no dependent row references it, leaving the
dependent tables untouched (no cascade); when dependents reference the
row, the foreign-key constraints of the schema make the delete fail
with 400 and the whole store is unchanged. -/
theorem c5_delete_client_fk (db : Db) (id : String) :
    (∀ r, db.clients.find? (fun c => c.id == id) = some r →
      clientReferenced id db = true →
      deleteClientById id db =
        ((400, Body.message "violates foreign key constraint"), db)) ∧
    (∀ r, db.clients.find? (fun c => c.id == id) = some r →
      clientReferenced id db = false →
      deleteClientById id db =
        ((200, Body.message "Client deleted successfully"),
          { db with clients := db.clients.filter (fun c => c.id != id) })) := by
  constructor <;> intro r hr href <;> simp only [deleteClientById] <;>
    rw [hr, href] <;> rfl

/-- C5 witness: the amended theorem evaluated on the seed store at the
referenced client c1 and at the unreferenced client c3. -/
theorem c5_delete_client_fk_witness :
    clientReferenced "c1" dbSeed = true ∧
    clientReferenced "c3" dbSeed = false ∧
    deleteClientById "c1" dbSeed =
      ((400, Body.message "violates foreign key constraint"), dbSeed) ∧
    deleteClientById "c3" dbSeed =
      ((200, Body.message "Client deleted successfully"),
        { dbSeed with clients := dbSeed.clients.filter (fun c => c.id != "c3") }) :=
  ⟨by decide, by decide,
    (c5_delete_client_fk dbSeed "c1").1 _ rfl (by decide),
    (c5_delete_client_fk dbSeed "c3").2 _ rfl (by decide)⟩

/-- C10: a PUT whose body holds none of the updatable fields builds an
UPDATE with an empty SET list on the three entities without an
updated_at refresh, so it is rejected with 400 (never 200, never 404)
and the store is unchanged, whereas the same empty body on a client
succeeds and rewrites only updated_at. -/
theorem c10_empty_body_updates (db : Db) (id : String) (now : Nat)
    (bi : InterestUpdateBody) (bl : CommLogUpdateBody) (bd : DocumentUpdateBody)
    (hbi1 : bi.property_type = none) (hbi2 : bi.preferred_location = none)
    (hbi3 : bi.price_min = none) (hbi4 : bi.price_max = none)
    (hbi5 : bi.additional_notes = none)
    (hbl1 : bl.communication_type = none) (hbl2 : bl.note = none)
    (hbl3 : bl.follow_up_flag = none) (hbl4 : bl.timestamp = none)
    (hbd1 : bd.document_name = none) (hbd2 : bd.document_url = none)
    (hbd3 : bd.document_type = none) :
    putClientPropertyInterestById id bi db =
      ((400, Body.message "syntax error at or near WHERE"), db) ∧
    putCommunicationLogById id bl db =
      ((400, Body.message "syntax error at or near WHERE"), db) ∧
    putClientDocumentById id bd db =
      ((400, Body.message "syntax error at or near WHERE"), db) ∧
    (∀ c0, db.clients.find? (fun c => c.id == id) = some c0 →
      (putClientById id {} now db).1 =
        (200, Body.client { c0 with updated_at := now }) ∧
      (dbOf (putClientById id {} now db)).clients =
        db.clients.map
          (fun c => if c.id == id then { c with updated_at := now } else c)) := by
  refine ⟨?_, ?_, ?_, ?_⟩
  · have hp : parseUpdateInterestInput bi = Except.ok bi := by
      rw [parseUpdateInterestInput, hbi1, hbi2]
      rfl
    have hc : interestSetClauses bi = [] := by
      rw [interestSetClauses, hbi1, hbi2, hbi3, hbi4, hbi5]
      rfl
    simp only [putClientPropertyInterestById, hp]
    rw [hc]
    rfl
  · have hp : parseUpdateCommLogInput bl = Except.ok bl := by
      rw [parseUpdateCommLogInput, hbl1, hbl2]
      rfl
    have hc : commLogSetClauses bl = [] := by
      rw [commLogSetClauses, hbl1, hbl2, hbl3, hbl4]
      rfl
    simp only [putCommunicationLogById, hp]
    rw [hc]
    rfl
  · have hp : parseUpdateDocumentInput bd = Except.ok bd := by
      rw [parseUpdateDocumentInput, hbd1, hbd2, hbd3]
      rfl
    have hc : documentSetClauses bd = [] := by
      rw [documentSetClauses, hbd1, hbd2, hbd3]
      rfl
    simp only [putClientDocumentById, hp]
    rw [hc]
    rfl
  · intro c0 hc0
    have hput := putClientById_ok db id {} now c0 hc0 rfl
    constructor
    · rw [hput]
      rfl
    · rw [dbOf, hput]
      rfl

/-- C10 witness: the theorem evaluated with genuinely empty bodies on
the one-client store. -/
theorem c10_empty_body_updates_witness :
    ({} : InterestUpdateBody).property_type = none ∧
    putClientPropertyInterestById "cpi1" {} dbOneClient =
      ((400, Body.message "syntax error at or near WHERE"), dbOneClient) ∧
    putCommunicationLogById "cl1" {} dbOneClient =
      ((400, Body.message "syntax error at or near WHERE"), dbOneClient) ∧
    (putClientById "c1" {} 999 dbOneClient).1 =
      (200, Body.client { aliceC1 with updated_at := 999 }) := by
  have h := c10_empty_body_updates dbOneClient "c1" 999 {} {} {}
    rfl rfl rfl rfl rfl rfl rfl rfl rfl rfl rfl rfl
  exact ⟨rfl, h.1, h.2.1, (h.2.2.2 aliceC1 rfl).1⟩

/-- C1: on an existing client, a PUT whose body passes validation
succeeds with 200; the stored row becomes the merge in which every
field absent from the body is unchanged, every present field
overwrites, created_at and id are untouched and updated_at becomes the
request time (hence strictly increases whenever time advanced); a
subsequent GET on the id returns exactly the merged record.  The
status-only request of the spec's concrete scenario is the instance
where status is the only present field. -/
theorem c1_put_client_partial_merge (db : Db) (id : String)
    (b : ClientUpdateBody) (now : Nat) (c0 : Client)
    (hfind : db.clients.find? (fun c => c.id == id) = some c0)
    (hparse : parseUpdateClientInput b = Except.ok b) :
    (putClientById id b now db).1 =
      (200, Body.client (applyClientUpdate b now c0)) ∧
    getClientById id (dbOf (putClientById id b now db)) =
      ((200, Body.client (applyClientUpdate b now c0)),
        dbOf (putClientById id b now db)) ∧
    (b.first_name = none →
      (applyClientUpdate b now c0).first_name = c0.first_name) ∧
    (∀ v, b.first_name = some v → (applyClientUpdate b now c0).first_name = v) ∧
    (b.last_name = none →
      (applyClientUpdate b now c0).last_name = c0.last_name) ∧
    (∀ v, b.last_name = some v → (applyClientUpdate b now c0).last_name = v) ∧
    (b.email = none → (applyClientUpdate b now c0).email = c0.email) ∧
    (∀ v, b.email = some v → (applyClientUpdate b now c0).email = v) ∧
    (b.phone = none → (applyClientUpdate b now c0).phone = c0.phone) ∧
    (∀ v, b.phone = some v → (applyClientUpdate b now c0).phone = v) ∧
    (b.address = none → (applyClientUpdate b now c0).address = c0.address) ∧
    (∀ v, b.address = some v → (applyClientUpdate b now c0).address = v) ∧
    (b.status = none → (applyClientUpdate b now c0).status = c0.status) ∧
    (∀ v, b.status = some v → (applyClientUpdate b now c0).status = v) ∧
    (b.additional_details = none →
      (applyClientUpdate b now c0).additional_details = c0.additional_details) ∧
    (∀ v, b.additional_details = some v →
      (applyClientUpdate b now c0).additional_details = v) ∧
    (applyClientUpdate b now c0).id = c0.id ∧
    (applyClientUpdate b now c0).created_at = c0.created_at ∧
    (applyClientUpdate b now c0).updated_at = now ∧
    (c0.updated_at < now →
      c0.updated_at < (applyClientUpdate b now c0).updated_at) := by
  obtain ⟨h1, h2, h3, h4, h5, h6⟩ := parseUpdateClientInput_ok_conditions hparse
  have hput := putClientById_ok db id b now c0 hfind hparse
  have hfind2 : (db.clients.map
      (fun c => if c.id == id then applyClientUpdate b now c else c)).find?
        (fun c => c.id == id) = some (applyClientUpdate b now c0) :=
    find?_update_map db.clients (fun c => c.id == id) (applyClientUpdate b now)
      (by intro a ha; simpa [applyClientUpdate] using ha) c0 hfind
  refine ⟨?_, ?_, ?_, ?_, ?_, ?_, ?_, ?_, ?_, ?_, ?_, ?_, ?_, ?_, ?_, ?_, ?_,
    ?_, ?_, ?_⟩
  · rw [hput]
  · rw [hput, dbOf]
    simp only [getClientById]
    rw [hfind2]
  · intro h
    simp [applyClientUpdate, h]
  · intro v hv
    have := presentNonempty_some hv h1
    simp [applyClientUpdate, hv, this]
  · intro h
    simp [applyClientUpdate, h]
  · intro v hv
    have := presentNonempty_some hv h2
    simp [applyClientUpdate, hv, this]
  · intro h
    simp [applyClientUpdate, h]
  · intro v hv
    have he : emailOk v = true := by
      rw [hv] at h3
      simpa [presentEmail] using h3
    have := emailOk_isEmpty_false he
    simp [applyClientUpdate, hv, this]
  · intro h
    simp [applyClientUpdate, h]
  · intro v hv
    have := presentNonempty_some hv h4
    simp [applyClientUpdate, hv, this]
  · intro h
    simp [applyClientUpdate, h]
  · intro v hv
    have := presentNonempty_some hv h5
    simp [applyClientUpdate, hv, this]
  · intro h
    simp [applyClientUpdate, h]
  · intro v hv
    have := presentNonempty_some hv h6
    simp [applyClientUpdate, hv, this]
  · intro h
    simp [applyClientUpdate, h]
  · intro v hv
    simp [applyClientUpdate, hv]
  · rfl
  · rfl
  · rfl
  · intro h
    simpa [applyClientUpdate] using h

/-- C1 witness: the spec's concrete scenario evaluated, a status-only
update on the stored Alice row at a later time. -/
theorem c1_put_client_partial_merge_witness :
    parseUpdateClientInput { status := some "prospective" } =
      Except.ok { status := some "prospective" } ∧
    (putClientById "c1" { status := some "prospective" } 101 dbOneClient).1 =
      (200, Body.client
        (applyClientUpdate { status := some "prospective" } 101 aliceC1)) ∧
    (applyClientUpdate { status := some "prospective" } 101 aliceC1).status =
      "prospective" ∧
    (applyClientUpdate { status := some "prospective" } 101 aliceC1).first_name =
      aliceC1.first_name ∧
    aliceC1.updated_at <
      (applyClientUpdate { status := some "prospective" } 101 aliceC1).updated_at := by
  have h := c1_put_client_partial_merge dbOneClient "c1"
    { status := some "prospective" } 101 aliceC1 rfl rfl
  obtain ⟨p1, p2, fn1, fn2, ln1, ln2, em1, em2, ph1, ph2, ad1, ad2, st1, st2,
    de1, de2, pid, pcr, pup, pmono⟩ := h
  exact ⟨rfl, p1, st2 "prospective" rfl, fn1 rfl, pmono (by decide)⟩

/-- C8: a login with a well-formed body behaves as the claim states:
when no user matches the identifier the response is exactly 401 with
the fixed message, and when a user matches but the bcrypt comparison
fails the response is the identical 401 pair, so the two failure runs
are indistinguishable; a successful login returns the signed token of
the user's id and role, and that token authorizes any protected call
made before its one-hour expiry. -/
theorem c8_login_contract (db : Db) (ident pass : String) (now : Nat)
    (hni : ident.isEmpty = false) (hnp : pass.isEmpty = false) :
    (db.users.find? (fun u => u.username == ident || u.email == ident) = none →
      postAuthLogin (some ident) (some pass) now db =
        ((401, Body.message "Authentication failed"), db)) ∧
    (∀ u, db.users.find? (fun u => u.username == ident || u.email == ident) = some u →
      bcryptCompare pass u.password_hash = false →
      postAuthLogin (some ident) (some pass) now db =
        ((401, Body.message "Authentication failed"), db)) ∧
    (∀ u, db.users.find? (fun u => u.username == ident || u.email == ident) = some u →
      bcryptCompare pass u.password_hash = true →
      postAuthLogin (some ident) (some pass) now db =
        ((200, Body.loginOk (jwtSign u.id u.role now) u), db) ∧
      (∀ (handler : Jwt → Db → Response × Db) (db2 : Db) (now2 : Nat),
        now2 < now + 3600 →
        withAuth (AuthHeader.signed (jwtSign u.id u.role now)) now2 handler db2 =
          handler (jwtSign u.id u.role now) db2)) := by
  refine ⟨?_, ?_, ?_⟩
  · intro hf
    simp [postAuthLogin, hni, hnp, hf]
  · intro u hf hc
    simp [postAuthLogin, hni, hnp, hf, hc]
  · intro u hf hc
    refine ⟨by simp [postAuthLogin, hni, hnp, hf, hc], ?_⟩
    intro handler db2 now2 hlt
    have hexp : ¬ (now + 3600 ≤ now2) := Nat.not_le.mpr hlt
    simp [withAuth, authenticateToken, jwtSign, hexp]

/-- C8 witness: the theorem evaluated on a store holding one user whose
hash matches pw1: unknown identifier and wrong password produce the
same response, and the issued token passes the middleware. -/
theorem c8_login_contract_witness :
    postAuthLogin (some "zed") (some "pw1") 50 dbLogin =
      ((401, Body.message "Authentication failed"), dbLogin) ∧
    postAuthLogin (some "bob") (some "wrong") 50 dbLogin =
      ((401, Body.message "Authentication failed"), dbLogin) ∧
    postAuthLogin (some "bob") (some "pw1") 50 dbLogin =
      ((200, Body.loginOk (jwtSign bobUser.id bobUser.role 50) bobUser), dbLogin) ∧
    withAuth (AuthHeader.signed (jwtSign bobUser.id bobUser.role 50)) 60 hStub dbLogin =
      hStub (jwtSign bobUser.id bobUser.role 50) dbLogin := by
  have hz := (c8_login_contract dbLogin "zed" "pw1" 50 rfl rfl).1 rfl
  have hw := (c8_login_contract dbLogin "bob" "wrong" 50 rfl rfl).2.1 bobUser rfl
    (by decide)
  have hok := (c8_login_contract dbLogin "bob" "pw1" 50 rfl rfl).2.2 bobUser rfl
    (by decide)
  exact ⟨hz, hw, hok.1, hok.2 hStub dbLogin 60 (by decide)⟩

end RealEstateCrm
